import Mathlib

/-!
# Verification of the Vulkan GPU compute execution context

Shallow embedding of `aten/src/ATen/native/vulkan/api/Context.cpp`: the
process-wide Vulkan `Context` singleton, its construction via the runtime
collaborator, `flush()`, `wait()`, and the two-phase dispatch protocol
(`dispatch_prologue` / `dispatch_epilogue`).

Native handles (`VkDevice`, `VkQueue`, shader modules, pipelines, ...) are
modelled as natural numbers, with `0` standing for the null handle
(`VK_NULL_HANDLE`). `VkResult` is modelled as an integer with `0` standing
for `VK_SUCCESS`. Fallible C++ code (`VK_CHECK`, `TORCH_CHECK`, exceptions)
is modelled with `Except VulkanError`. Side effects on the driver and on the
pools are modelled as explicit state passing plus an event trace recording
the externally observable actions in program order.
-/

namespace VulkanApi

/-- A thrown `c10::Error` (what `TORCH_CHECK` and `VK_CHECK` raise). -/
structure VulkanError where
  msg : String
deriving DecidableEq, Repr

/-- Embedding of `TORCH_CHECK(cond, msg)`: throw a `c10::Error` carrying
`msg` when `cond` is false. -/
def torchCheck (cond : Prop) [Decidable cond] (msg : String) :
    Except VulkanError Unit :=
  if cond then .ok () else .error ⟨msg⟩

/-- Embedding of `VK_CHECK(expr)`: the macro evaluates `expr` to a
`VkResult` and `TORCH_CHECK`s `VK_SUCCESS == result`. -/
def vkCheck (result : Int) : Except VulkanError Unit :=
  torchCheck (result = 0) "VK_CHECK failed"

/-- Embedding of `TORCH_INTERNAL_ASSERT_DEBUG_ONLY(cond, msg)`: in debug
builds the assertion throws when `cond` is false; in production builds it is
compiled out. The `debug` flag of the environment selects the build. -/
def debugAssert (debug : Bool) (cond : Prop) [Decidable cond]
    (msg : String) : Except VulkanError Unit :=
  if debug then torchCheck cond msg else .ok ()

theorem torchCheck_pos {cond : Prop} [Decidable cond] {msg : String}
    (h : cond) : torchCheck cond msg = .ok () := by
  simp [torchCheck, h]

theorem torchCheck_neg {cond : Prop} [Decidable cond] {msg : String}
    (h : ¬ cond) : torchCheck cond msg = .error ⟨msg⟩ := by
  simp [torchCheck, h]

theorem torchCheck_eq_ok {cond : Prop} [Decidable cond] {msg : String}
    {u : Unit} (h : torchCheck cond msg = .ok u) : cond := by
  by_cases hc : cond
  · exact hc
  · rw [torchCheck_neg hc] at h
    exact absurd h (by simp)

/-- `do`-notation bind on `Except` is `Except.bind`. -/
theorem except_bind_eq {α β : Type} (x : Except VulkanError α)
    (f : α → Except VulkanError β) : x >>= f = x.bind f := rfl

/-- Inversion of a successful `Except.bind`. -/
theorem exceptBind_ok_iff {α β : Type} {x : Except VulkanError α}
    {f : α → Except VulkanError β} {b : β} :
    x.bind f = .ok b ↔ ∃ a, x = .ok a ∧ f a = .ok b := by
  cases x <;> simp [Except.bind]

/-- A bind whose continuation always fails (or whose head fails) fails. -/
theorem exceptBind_error {α β : Type} {x : Except VulkanError α}
    {f : α → Except VulkanError β}
    (h : ∀ a, x = .ok a → ∃ e, f a = .error e) :
    ∃ e, x.bind f = .error e := by
  cases x with
  | error e => exact ⟨e, rfl⟩
  | ok a =>
      obtain ⟨e, he⟩ := h a rfl
      exact ⟨e, by simp [Except.bind, he]⟩

/-- Behaviour of the underlying Vulkan driver calls made during
device/queue creation, as observed by `create_device` / `acquire_queue`:
the `VkResult` of each checked call and the handle each out-parameter is
filled with. -/
structure DriverEnv where
  /-- Build flag: whether `TORCH_INTERNAL_ASSERT_DEBUG_ONLY` is active. -/
  debug : Bool
  /-- `VkResult` of the first `vkEnumerateDeviceExtensionProperties` call. -/
  enumerateCountResult : Int
  /-- `VkResult` of the second `vkEnumerateDeviceExtensionProperties` call. -/
  enumerateFillResult : Int
  /-- Extension names reported by the driver for the physical device. -/
  extensionNames : List String
  /-- Whether the `VK_KHR_portability_subset` preprocessor macro is defined. -/
  portabilitySubsetDefined : Bool
  /-- `VkResult` of `vkCreateDevice`. -/
  createDeviceResult : Int
  /-- Handle written to the `&device` out-parameter by `vkCreateDevice`. -/
  createdDevice : Nat
  /-- Handle written to the `&queue` out-parameter by `vkGetDeviceQueue`. -/
  gotQueue : Nat
deriving DecidableEq, Repr

/-- The `requested_device_extensions` array: it contains
`VK_KHR_PORTABILITY_SUBSET_EXTENSION_NAME` exactly when the
`VK_KHR_portability_subset` macro is defined, and nothing else. -/
def requestedDeviceExtensions (portabilitySubsetDefined : Bool) :
    List String :=
  if portabilitySubsetDefined then ["VK_KHR_portability_subset"] else []

/-- The selection loop of `create_device`: for each requested extension,
scan the reported extension properties and enable the extension on the
first `strcmp` match. -/
def enabledDeviceExtensions (requested : List String)
    (reported : List String) : List String :=
  requested.filter (fun r => reported.contains r)

/-- Embedding of the file-local `create_device(physical_device,
compute_queue_family_index)`: debug-assert the physical device, enumerate
device extensions (two `VK_CHECK`ed driver calls), select the requested
extensions that are present, `VK_CHECK(vkCreateDevice(...))`, then
`TORCH_CHECK` that the produced device handle is non-null. -/
def create_device (env : DriverEnv) (physical_device : Nat)
    (_compute_queue_family_index : Nat) : Except VulkanError Nat := do
  debugAssert env.debug (physical_device ≠ 0) "Invalid Vulkan physical device!"
  vkCheck env.enumerateCountResult
  vkCheck env.enumerateFillResult
  let _enabled := enabledDeviceExtensions
      (requestedDeviceExtensions env.portabilitySubsetDefined)
      env.extensionNames
  vkCheck env.createDeviceResult
  let device := env.createdDevice
  torchCheck (device ≠ 0) "Invalid Vulkan device!"
  pure device

/-- Embedding of the file-local `acquire_queue(device,
compute_queue_family_index)`: debug-assert the device,
`vkGetDeviceQueue(device, family, 0, &queue)` (which returns no result but
may yield a null handle), then `TORCH_CHECK` that the queue handle is
non-null. -/
def acquire_queue (env : DriverEnv) (device : Nat)
    (_compute_queue_family_index : Nat) : Except VulkanError Nat := do
  debugAssert env.debug (device ≠ 0) "Invalid Vulkan device!"
  let queue := env.gotQueue
  torchCheck (queue ≠ 0) "Invalid Vulkan queue!"
  pure queue

/-- Unfolding of `create_device` into an explicit `Except.bind` chain. -/
theorem create_device_def (env : DriverEnv) (pd qfi : Nat) :
    create_device env pd qfi =
      (debugAssert env.debug (pd ≠ 0) "Invalid Vulkan physical device!").bind
        (fun _ => (vkCheck env.enumerateCountResult).bind
          (fun _ => (vkCheck env.enumerateFillResult).bind
            (fun _ => (vkCheck env.createDeviceResult).bind
              (fun _ => (torchCheck (env.createdDevice ≠ 0)
                  "Invalid Vulkan device!").bind
                (fun _ => Except.ok env.createdDevice))))) := rfl

/-- Unfolding of `acquire_queue` into an explicit `Except.bind` chain. -/
theorem acquire_queue_def (env : DriverEnv) (device qfi : Nat) :
    acquire_queue env device qfi =
      (debugAssert env.debug (device ≠ 0) "Invalid Vulkan device!").bind
        (fun _ => (torchCheck (env.gotQueue ≠ 0) "Invalid Vulkan queue!").bind
          (fun _ => Except.ok env.gotQueue)) := rfl

/-- Modelled from the spec: the runtime collaborator's `Adapter` (its
implementation lives outside `Context.cpp`; per the spec §6 it is "a
selectable physical GPU exposed by the runtime collaborator" whose
`device_handle()` / `request_queue()` yield the logical device and a leased
compute queue, created through `create_device` / `acquire_queue` and failing
by propagating the underlying-API error). -/
structure Adapter where
  env : DriverEnv
  physicalDevice : Nat
  computeQueueFamilyIndex : Nat
deriving DecidableEq, Repr

/-- Modelled from the spec: `Adapter::device_handle()` returns the logical
device created by `create_device`, propagating its error. -/
def Adapter.device_handle (a : Adapter) : Except VulkanError Nat :=
  create_device a.env a.physicalDevice a.computeQueueFamilyIndex

/-- Modelled from the spec: `Adapter::request_queue()` leases the compute
queue of the adapter's device, obtained by `acquire_queue`, propagating any
error from device creation or from the null-queue check. -/
def Adapter.request_queue (a : Adapter) : Except VulkanError Nat := do
  let device ← a.device_handle
  acquire_queue a.env device a.computeQueueFamilyIndex

/-- Modelled from the spec: the runtime collaborator, supplying
`instance()`, `default_adapter_i()` and `get_adapter(index)`. -/
structure Runtime where
  vkInstance : Nat
  defaultAdapterIndex : Nat
  adapters : List Adapter
deriving DecidableEq, Repr

/-- Modelled from the spec: `Runtime::get_adapter(index)`. -/
def Runtime.get_adapter (rt : Runtime) (i : Nat) : Adapter :=
  (rt.adapters.drop i).headD ⟨⟨false, 0, 0, [], false, 0, 0, 0⟩, 0, 0⟩

/-- The immutable handle part of the `Context` object: the fields set by
the member-initializer list of `Context::Context(instance, adapter_i)`.
The caches and the per-thread contexts are mutable state and are modelled
separately (`Caches`, `ThreadMap`). -/
structure Context where
  instanceHandle : Nat
  adapter_i : Nat
  device_ : Nat
  queue_ : Nat
deriving DecidableEq, Repr

/-- Embedding of the constructor `Context::Context(instance, adapter_i)`:
`device_(runtime()->get_adapter(adapter_i).device_handle())`,
`queue_(runtime()->get_adapter(adapter_i).request_queue())`; a thrown
error from either initializer propagates out of the constructor. -/
def Context.construct (rt : Runtime) (instanceHandle : Nat)
    (adapter_i : Nat) : Except VulkanError Context := do
  let device ← (rt.get_adapter adapter_i).device_handle
  let queue ← (rt.get_adapter adapter_i).request_queue
  pure ⟨instanceHandle, adapter_i, device, queue⟩

/-- State of the function-local static `std::unique_ptr<Context> context`
inside `context()`: `none` while the static is uninitialized (including
after a failed initialization, which C++ leaves incomplete and re-attempts
on the next call), `some c` once a context was successfully constructed. -/
structure ProcessState where
  singleton : Option Context
deriving DecidableEq, Repr

/-- The process state before the first call to `context()`. -/
def ProcessState.init : ProcessState := ⟨none⟩

/-- Decidable equality of `Except` results, for concrete evaluation. -/
instance {ε α : Type} [DecidableEq ε] [DecidableEq α] :
    DecidableEq (Except ε α) := fun a b =>
  match a, b with
  | .ok x, .ok y =>
      if h : x = y then .isTrue (by rw [h]) else .isFalse (by simp [h])
  | .error x, .error y =>
      if h : x = y then .isTrue (by rw [h]) else .isFalse (by simp [h])
  | .ok _, .error _ => .isFalse (by simp)
  | .error _, .ok _ => .isFalse (by simp)

/-- Observation of one call to `context()`: the returned pointer or thrown
error, the state of the static afterwards, and whether this call
constructed a new `Context`. -/
structure ContextCallResult where
  outcome : Except VulkanError Context
  state : ProcessState
  constructed : Bool
deriving DecidableEq, Repr

/-- The wrapped fatal error thrown by the initializing lambda of
`context()`: `TORCH_CHECK(false, "Vulkan: Failed to initialize context!
Error: ", e.what())`. -/
def fatalContextError (e : VulkanError) : VulkanError :=
  ⟨"Vulkan: Failed to initialize context! Error: " ++ e.msg⟩

/-- Embedding of `Context* context()`: a function-local static
`unique_ptr` initialized by a lambda that constructs
`new Context(runtime()->instance(), runtime()->default_adapter_i())` and
converts any exception into the fatal wrapped `TORCH_CHECK(false, ...)`
error. If initialization throws, the static stays uninitialized (C++
re-runs a failed static-local initializer on the next call); on success
the pointer is stored and returned on every subsequent call. -/
def contextCall (rt : Runtime) (s : ProcessState) : ContextCallResult :=
  match s.singleton with
  | some c => ⟨.ok c, s, false⟩
  | none =>
    match Context.construct rt rt.vkInstance rt.defaultAdapterIndex with
    | .ok c => ⟨.ok c, ⟨some c⟩, true⟩
    | .error e => ⟨.error (fatalContextError e), s, false⟩

/-- Embedding of `bool available() { return context(); }`: the returned
pointer (non-null on success) converts to `true`; a thrown error
propagates out of `available()` unchanged. -/
def availableCall (rt : Runtime) (s : ProcessState) :
    Except VulkanError Bool × ProcessState :=
  let r := contextCall rt s
  (r.outcome.map (fun _ => true), r.state)

/-- The static's state after `n` successive calls to `context()`. -/
def contextCalls (rt : Runtime) : Nat → ProcessState → ProcessState
  | 0, s => s
  | n + 1, s => contextCalls rt n (contextCall rt s).state

/-- The outcomes of `n` successive calls to `context()`. -/
def contextOutcomes (rt : Runtime) :
    Nat → ProcessState → List (Except VulkanError Context)
  | 0, _ => []
  | n + 1, s =>
      (contextCall rt s).outcome ::
        contextOutcomes rt n (contextCall rt s).state

/-- How many of `n` successive calls to `context()` constructed a new
`Context`. -/
def constructedCount (rt : Runtime) : Nat → ProcessState → Nat
  | 0, _ => 0
  | n + 1, s =>
      (if (contextCall rt s).constructed then 1 else 0) +
        constructedCount rt n (contextCall rt s).state

/-- Once the static holds a context, calls neither change it nor construct
again, and always return the stored context. -/
theorem contextCalls_stable (rt : Runtime) (c : Context) (n : Nat) :
    contextCalls rt n ⟨some c⟩ = ⟨some c⟩ ∧
    constructedCount rt n ⟨some c⟩ = 0 ∧
    ∀ o ∈ contextOutcomes rt n ⟨some c⟩, o = .ok c := by
  induction n with
  | zero => exact ⟨rfl, rfl, by simp [contextOutcomes]⟩
  | succ n ih =>
      refine ⟨?_, ?_, ?_⟩
      · simpa [contextCalls, contextCall] using ih.1
      · simpa [constructedCount, contextCall] using ih.2.1
      · intro o ho
        simp only [contextOutcomes, contextCall, List.mem_cons] at ho
        rcases ho with rfl | ho
        · rfl
        · exact ih.2.2 o ho

/-- Over any number of calls from any state, at most one `Context` is ever
constructed. -/
theorem constructedCount_le_one (rt : Runtime) (n : Nat) (s : ProcessState) :
    constructedCount rt n s ≤ 1 := by
  induction n generalizing s with
  | zero => simp [constructedCount]
  | succ n ih =>
      rcases s with ⟨_ | c⟩
      · rcases hc : Context.construct rt rt.vkInstance rt.defaultAdapterIndex
          with e | c
        · simpa [constructedCount, contextCall, hc] using
            ih ⟨none⟩
        · simpa [constructedCount, contextCall, hc] using
            (contextCalls_stable rt c n).2.1.le
      · simpa [constructedCount, contextCall] using ih ⟨some c⟩

/-- A runtime whose single adapter's `vkCreateDevice` fails with result
`-1`: `Context` construction fails on it. -/
def failingRuntime : Runtime :=
  ⟨3, 0, [⟨⟨false, 0, 0, [], false, -1, 0, 0⟩, 1, 0⟩]⟩

/-- A runtime whose single adapter yields device handle `9` and queue
handle `5`: `Context` construction succeeds on it. -/
def workingRuntime : Runtime :=
  ⟨3, 0, [⟨⟨false, 0, 0, [], false, 0, 9, 5⟩, 1, 0⟩]⟩

/-- While the static is uninitialized and construction fails, a `context()`
call throws the wrapped fatal error and leaves the static uninitialized. -/
theorem contextCall_failure (rt : Runtime) (e : VulkanError)
    (s : ProcessState) (hs : s.singleton = none)
    (hfail : Context.construct rt rt.vkInstance rt.defaultAdapterIndex =
      .error e) :
    contextCall rt s = ⟨.error (fatalContextError e), s, false⟩ := by
  obtain ⟨sing⟩ := s
  simp only [ProcessState.mk.injEq] at hs
  subst hs
  simp [contextCall, hfail]

/-! ## Claim C1 (corrected): fatal construction failure -/

/-- **C1 (counterexample).** The claim says that after a construction
failure every subsequent `available()` call returns `false`. It does not:
with a runtime whose `vkCreateDevice` fails, the state after the failed
first `context()` call is unchanged, and `available()` called on it
propagates the wrapped fatal error — it never returns normally with
`false`. -/
theorem available_after_failure_counterexample :
    (availableCall failingRuntime
        (contextCall failingRuntime ProcessState.init).state).1 ≠
      .ok false ∧
    (availableCall failingRuntime
        (contextCall failingRuntime ProcessState.init).state).1 =
      .error ⟨"Vulkan: Failed to initialize context! Error: VK_CHECK failed"⟩ := by
  decide

/-- **C1 (amended).** After `Context` construction fails, the context stays
unavailable and the failure is stable: the static stays uninitialized,
every subsequent `context()` call re-attempts initialization (C++ re-runs
a failed static-local initializer) and receives the same wrapped fatal
outcome, and `available()` propagates that same fatal error rather than
returning `false`. -/
theorem context_failure_fatal (rt : Runtime) (s : ProcessState)
    (e : VulkanError) (n : Nat) (hs : s.singleton = none)
    (hfail : Context.construct rt rt.vkInstance rt.defaultAdapterIndex =
      .error e) :
    contextCall rt s = ⟨.error (fatalContextError e), s, false⟩ ∧
    contextCalls rt n s = s ∧
    (∀ o ∈ contextOutcomes rt n s, o = .error (fatalContextError e)) ∧
    availableCall rt s = (.error (fatalContextError e), s) := by
  refine ⟨contextCall_failure rt e s hs hfail, ?_, ?_, ?_⟩
  · induction n with
    | zero => rfl
    | succ n ih =>
        rw [contextCalls, contextCall_failure rt e s hs hfail]
        exact ih
  · induction n with
    | zero => simp [contextOutcomes]
    | succ n ih =>
        intro o ho
        rw [contextOutcomes, contextCall_failure rt e s hs hfail] at ho
        rcases List.mem_cons.mp ho with rfl | ho
        · rfl
        · exact ih o ho
  · rw [availableCall, contextCall_failure rt e s hs hfail]
    rfl

/-- Witness for C1 (amended) on the concrete failing runtime: two
successive calls both yield the wrapped fatal error and leave the static
uninitialized. -/
theorem context_failure_fatal_witness :
    contextCall failingRuntime ProcessState.init =
      ⟨.error (fatalContextError ⟨"VK_CHECK failed"⟩), ProcessState.init,
        false⟩ ∧
    availableCall failingRuntime ProcessState.init =
      (.error (fatalContextError ⟨"VK_CHECK failed"⟩), ProcessState.init) := by
  have h := context_failure_fatal failingRuntime ProcessState.init
    ⟨"VK_CHECK failed"⟩ 0 rfl (by decide)
  exact ⟨h.1, h.2.2.2⟩

/-! ## Claim C7: process-wide lazy singleton -/

/-- **C7.** Exactly one `Context` exists process-wide: the first
`context()` call constructs it lazily and stores it in the static, every
later call returns that same stored context without constructing again,
over `n + 1` calls from the initial state exactly one construction
happens, and no call ever destroys or replaces the stored context (the
static `unique_ptr` is released only at process teardown). -/
theorem context_singleton (rt : Runtime) (c : Context) (n : Nat)
    (hok : Context.construct rt rt.vkInstance rt.defaultAdapterIndex =
      .ok c) :
    contextCall rt ProcessState.init = ⟨.ok c, ⟨some c⟩, true⟩ ∧
    (∀ s : ProcessState, s.singleton = some c →
      contextCall rt s = ⟨.ok c, s, false⟩) ∧
    contextCalls rt n ⟨some c⟩ = ⟨some c⟩ ∧
    (∀ o ∈ contextOutcomes rt n ⟨some c⟩, o = .ok c) ∧
    constructedCount rt (n + 1) ProcessState.init = 1 := by
  refine ⟨?_, ?_, (contextCalls_stable rt c n).1,
    (contextCalls_stable rt c n).2.2, ?_⟩
  · simp [contextCall, ProcessState.init, hok]
  · intro s hs
    obtain ⟨sing⟩ := s
    simp only [ProcessState.mk.injEq] at hs
    subst hs
    rfl
  · rw [constructedCount]
    simp [contextCall, ProcessState.init, hok,
      (contextCalls_stable rt c n).2.1]

/-- Witness for C7 on the concrete working runtime: the first call
constructs the context `⟨3, 0, 9, 5⟩`, later calls return it unchanged,
and three calls construct exactly once. -/
theorem context_singleton_witness :
    contextCall workingRuntime ProcessState.init =
      ⟨.ok ⟨3, 0, 9, 5⟩, ⟨some ⟨3, 0, 9, 5⟩⟩, true⟩ ∧
    constructedCount workingRuntime 3 ProcessState.init = 1 := by
  have h := context_singleton workingRuntime ⟨3, 0, 9, 5⟩ 2 (by decide)
  exact ⟨h.1, h.2.2.2.2⟩

/-- A successful `create_device` yields the driver-produced, non-null
device handle. -/
theorem create_device_ok {env : DriverEnv} {pd qfi d : Nat}
    (h : create_device env pd qfi = .ok d) :
    d = env.createdDevice ∧ d ≠ 0 := by
  rw [create_device_def] at h
  obtain ⟨u1, _, h⟩ := exceptBind_ok_iff.mp h
  obtain ⟨u2, _, h⟩ := exceptBind_ok_iff.mp h
  obtain ⟨u3, _, h⟩ := exceptBind_ok_iff.mp h
  obtain ⟨u4, _, h⟩ := exceptBind_ok_iff.mp h
  obtain ⟨u5, hu5, h⟩ := exceptBind_ok_iff.mp h
  have hne := torchCheck_eq_ok hu5
  cases h
  exact ⟨rfl, hne⟩

/-- A successful `acquire_queue` yields the driver-produced, non-null
queue handle. -/
theorem acquire_queue_ok {env : DriverEnv} {device qfi q : Nat}
    (h : acquire_queue env device qfi = .ok q) :
    q = env.gotQueue ∧ q ≠ 0 := by
  rw [acquire_queue_def] at h
  obtain ⟨u1, _, h⟩ := exceptBind_ok_iff.mp h
  obtain ⟨u2, hu2, h⟩ := exceptBind_ok_iff.mp h
  have hne := torchCheck_eq_ok hu2
  cases h
  exact ⟨rfl, hne⟩

/-- Access mode of a host-visible view of tensor data
(`ops::vTensor::Access`). -/
inductive Access
  | read
  | write
deriving DecidableEq, Repr

/-- Externally observable actions of the context, recorded in program
order: queue-idle waits, pool purges (tagged with the owning thread),
command-stream acquisition, host-future requests and waits, queue
lease returns, and handle destruction. -/
inductive Event
  | queueWaitIdle (queue : Nat)
  | purgeResource (tid : Nat)
  | purgeDescriptor (tid : Nat)
  | purgeCommand (tid : Nat)
  | streamObtained (tid : Nat) (stream : Nat)
  | hostFutureRequested (tensor : Nat) (stream : Nat) (access : Access)
  | futureWaited (tensor : Nat)
  | returnQueue (queue : Nat)
  | destroyDevice (device : Nat)
  | destroyQueue (queue : Nat)
deriving DecidableEq, Repr

/-- Whether an event is a pool purge. -/
def Event.isPurge : Event → Bool
  | .purgeResource _ => true
  | .purgeDescriptor _ => true
  | .purgeCommand _ => true
  | _ => false

/-- The per-thread resource pool (`Resource::Pool`): a growable collection
of allocated scratch objects; `purge()` invalidates and frees them all. -/
structure ResourcePool where
  live : List Nat
  generation : Nat
deriving DecidableEq, Repr

/-- Embedding of `Resource::Pool::purge()`. -/
def ResourcePool.purge (p : ResourcePool) : ResourcePool :=
  ⟨[], p.generation + 1⟩

/-- The binding types making up a shader layout signature
(`Shader::Layout::Signature` is an ordered sequence of
`VkDescriptorType`s). -/
inductive BindingType
  | storageBuffer
  | uniformBuffer
  | sampledImage
  | storageImage
deriving DecidableEq, Repr

/-- `Shader::Layout::Signature`: an ordered sequence of binding-type
descriptors; equality is structural. -/
abbrev ShaderLayoutSignature := List BindingType

/-- `Shader::Layout::Object`: a cached descriptor-set-layout native object
together with the signature it was built from. -/
structure ShaderLayoutObject where
  handle : Nat
  signature : ShaderLayoutSignature
deriving DecidableEq, Repr

/-- `Shader::WorkGroup`: a 3-D work-group shape. -/
structure WorkGroup where
  x : Nat
  y : Nat
  z : Nat
deriving DecidableEq, Repr

/-- `Shader::Descriptor`: the opaque structural key identifying a shader's
source or binary in the shader cache. -/
structure ShaderDescriptor where
  id : Nat
deriving DecidableEq, Repr

/-- `Pipeline::Descriptor`: the pipeline-cache key — pipeline layout
handle, compiled shader module handle, and local work-group shape. -/
structure PipelineDescriptor where
  pipelineLayout : Nat
  shaderModule : Nat
  localWorkGroup : WorkGroup
deriving DecidableEq, Repr

/-- `Descriptor::Set`: a descriptor set allocated from a thread's
descriptor pool, sized to a layout, later filled with resource bindings by
the caller. -/
structure DescriptorSet where
  id : Nat
  layout : ShaderLayoutObject
  boundResources : List Nat
deriving DecidableEq, Repr

/-- The per-thread descriptor pool (`Descriptor::Pool`). -/
structure DescriptorPool where
  live : List DescriptorSet
  next : Nat
  generation : Nat
deriving DecidableEq, Repr

/-- Embedding of `Descriptor::Pool::allocate(layout)`: hand out a fresh,
unbound descriptor set sized to `layout`. -/
def DescriptorPool.allocate (p : DescriptorPool)
    (layout : ShaderLayoutObject) : DescriptorSet × DescriptorPool :=
  (⟨p.next, layout, []⟩, ⟨⟨p.next, layout, []⟩ :: p.live, p.next + 1,
    p.generation⟩)

/-- Embedding of `Descriptor::Pool::purge()`. -/
def DescriptorPool.purge (p : DescriptorPool) : DescriptorPool :=
  ⟨[], p.next, p.generation + 1⟩

/-- The per-thread command pool (`Command::Pool`), with the currently open
command stream, if any. -/
structure CommandPool where
  openStream : Option Nat
  nextStream : Nat
  generation : Nat
deriving DecidableEq, Repr

/-- Embedding of `Command::Pool::stream()`: return the thread's currently
open command buffer, creating one if none is open. -/
def CommandPool.stream (p : CommandPool) : Nat × CommandPool :=
  match p.openStream with
  | some s => (s, p)
  | none => (p.nextStream, ⟨some p.nextStream, p.nextStream + 1,
      p.generation⟩)

/-- Embedding of `Command::Pool::purge()`. -/
def CommandPool.purge (p : CommandPool) : CommandPool :=
  ⟨none, p.nextStream, p.generation + 1⟩

/-- The `ThreadContext` owned by one thread: its resource, descriptor, and
command pools (`Context::threadcontext_` hands each thread its own). -/
structure ThreadContext where
  resourcePool : ResourcePool
  descriptorPool : DescriptorPool
  commandPool : CommandPool
deriving DecidableEq, Repr

/-- Modelled from the spec: the registry mapping thread identity to that
thread's `ThreadContext` (the `resource()` / `descriptor()` / `command()`
accessors of `Context` live in `Context.h`, outside this translation unit;
per spec §4.3 and §9 each pool is owned by exactly one thread, looked up by
the calling thread's identity). -/
def ThreadMap : Type := Nat → ThreadContext

/-- Embedding of `Context::flush()` as called from thread `tid`:
`VK_CHECK(vkQueueWaitIdle(queue()))` — blocking until all previously
submitted work completes and yielding `waitIdleResult` — then, only if
that check passed, purge the calling thread's resource, descriptor, and
command pools, in that order. On a failed check the thrown error
propagates before any purge. Returns the thread registry afterwards, the
event trace, and the call's outcome. -/
def Context.flush (ctx : Context) (waitIdleResult : Int) (tid : Nat)
    (threads : ThreadMap) :
    ThreadMap × List Event × Except VulkanError Unit :=
  if waitIdleResult = 0 then
    (fun t => if t = tid then
        ⟨(threads tid).resourcePool.purge, (threads tid).descriptorPool.purge,
          (threads tid).commandPool.purge⟩
      else threads t,
     [.queueWaitIdle ctx.queue_, .purgeResource tid, .purgeDescriptor tid,
      .purgeCommand tid],
     .ok ())
  else
    (threads, [.queueWaitIdle ctx.queue_], .error ⟨"VK_CHECK failed"⟩)

/-- The device type a tensor's storage lives on (`src.device().type()`);
`at::kVulkan` marks device-resident Vulkan data. -/
inductive DeviceType
  | cpu
  | vulkan
  | cuda
deriving DecidableEq, Repr

/-- The observable surface of an `at::Tensor` used by `Context::wait`:
where its storage lives and an identifier for its data. -/
structure Tensor where
  deviceType : DeviceType
  dataId : Nat
deriving DecidableEq, Repr

/-- Embedding of `Context::wait(src)` as called from thread `tid`: if
`src` is a Vulkan tensor, obtain the calling thread's current command
stream from its command pool, request a host-visible read-only future
(`vTensor::Future<const void, Access::Read>`) for the tensor's data via
that stream, and block until the future resolves; otherwise do nothing. -/
def Context.wait (tid : Nat) (threads : ThreadMap) (src : Tensor) :
    ThreadMap × List Event :=
  if src.deviceType = .vulkan then
    let sp := (threads tid).commandPool.stream
    (fun t => if t = tid then
        ⟨(threads tid).resourcePool, (threads tid).descriptorPool, sp.2⟩
      else threads t,
     [.streamObtained tid sp.1,
      .hostFutureRequested src.dataId sp.1 .read,
      .futureWaited src.dataId])
  else
    (threads, [])

/-- Embedding of `Context::~Context()`: return the leased queue to the
runtime collaborator (`runtime()->get_adapter(adapter_i_).return_queue(queue_)`)
and do nothing else — no flush, no purge, no destruction of the device or
queue handles (the destructor body is that single call). -/
def Context.destruct (ctx : Context) : List Event :=
  [.returnQueue ctx.queue_]

/-- Association lookup with decidable key equality, used by the memoizing
caches. -/
def lookupKey {K V : Type} [DecidableEq K] : List (K × V) → K → Option V
  | [], _ => none
  | (k, v) :: rest, key => if k = key then some v else lookupKey rest key

/-- The process-wide memoizing caches of `Context`: the shader cache and
its nested layout cache (`shader_`), and the pipeline cache and its nested
layout cache (`pipeline_`). Each maps a structural signature to a native
object handle, constructing and inserting on first request and never
evicting; the `...Next` counters supply the handle for each newly
constructed object. -/
structure Caches where
  shaderLayout : List (ShaderLayoutSignature × ShaderLayoutObject)
  shaderLayoutNext : Nat
  shaderModules : List (ShaderDescriptor × Nat)
  shaderNext : Nat
  pipelineLayout : List (Nat × Nat)
  pipelineLayoutNext : Nat
  pipelines : List (PipelineDescriptor × Nat)
  pipelineNext : Nat
deriving DecidableEq, Repr

/-- The caches of a freshly constructed context. -/
def emptyCaches : Caches := ⟨[], 0, [], 0, [], 0, [], 0⟩

/-- Embedding of `shader.layout.cache.retrieve({signature})`: return the
cached descriptor-set-layout object for the signature, constructing and
inserting it on first request. -/
def Caches.retrieveShaderLayout (c : Caches) (sig : ShaderLayoutSignature) :
    ShaderLayoutObject × Caches :=
  match lookupKey c.shaderLayout sig with
  | some obj => (obj, c)
  | none =>
      (⟨c.shaderLayoutNext, sig⟩,
        { c with
          shaderLayout := (sig, ⟨c.shaderLayoutNext, sig⟩) :: c.shaderLayout,
          shaderLayoutNext := c.shaderLayoutNext + 1 })

/-- Embedding of `pipeline.layout.cache.retrieve({descriptor_set_layout})`:
return the cached pipeline-layout handle for a descriptor-set-layout
handle, constructing it on first request. -/
def Caches.retrievePipelineLayout (c : Caches) (dsl : Nat) : Nat × Caches :=
  match lookupKey c.pipelineLayout dsl with
  | some pl => (pl, c)
  | none =>
      (c.pipelineLayoutNext,
        { c with
          pipelineLayout := (dsl, c.pipelineLayoutNext) :: c.pipelineLayout,
          pipelineLayoutNext := c.pipelineLayoutNext + 1 })

/-- Embedding of `shader.cache.retrieve(shader_descriptor)`: return the
cached compiled shader module handle, compiling it on first request. -/
def Caches.retrieveShader (c : Caches) (sd : ShaderDescriptor) :
    Nat × Caches :=
  match lookupKey c.shaderModules sd with
  | some sm => (sm, c)
  | none =>
      (c.shaderNext,
        { c with
          shaderModules := (sd, c.shaderNext) :: c.shaderModules,
          shaderNext := c.shaderNext + 1 })

/-- Embedding of `pipeline.cache.retrieve({pipeline_layout, shader_module,
local_work_group_size})`: return the cached compute pipeline handle for
the pipeline descriptor, constructing it on first request. -/
def Caches.retrievePipeline (c : Caches) (pd : PipelineDescriptor) :
    Nat × Caches :=
  match lookupKey c.pipelines pd with
  | some p => (p, c)
  | none =>
      (c.pipelineNext,
        { c with
          pipelines := (pd, c.pipelineNext) :: c.pipelines,
          pipelineNext := c.pipelineNext + 1 })

/-- A command recorded into a thread's command stream by the dispatch
protocol: a compute-pipeline bind (`command_buffer.bind(pipeline)`, the
bound object carrying the descriptor it was built from, including its
local work-group shape), a descriptor-set bind, or a dispatch over a
global work-group shape. -/
inductive Cmd
  | bindPipeline (pipeline : Nat) (descriptor : PipelineDescriptor)
  | bindDescriptorSet (set : DescriptorSet)
  | dispatch (globalWorkGroup : WorkGroup)
deriving DecidableEq, Repr

/-- Whether a recorded command is a dispatch. -/
def Cmd.isDispatch : Cmd → Bool
  | .dispatch _ => true
  | _ => false

/-- A command stream (`Command::Buffer`): an append-only sequence of
recorded commands. -/
abbrev CommandBuffer := List Cmd

/-- One cache-resolution step of `dispatch_prologue`, recorded in the
order the C++ expression evaluates it. -/
inductive ResolveEvent
  | shaderLayoutResolved (sig : ShaderLayoutSignature)
  | shaderResolved (sd : ShaderDescriptor)
  | pipelineLayoutResolved (dsl : Nat)
  | pipelineResolved (pd : PipelineDescriptor)
deriving DecidableEq, Repr

/-- Everything `dispatch_prologue` produces: the returned descriptor set,
the updated caches, the updated thread registry, the command stream after
the pipeline bind, and the cache-resolution trace in evaluation order. -/
structure PrologueResult where
  set : DescriptorSet
  caches : Caches
  threads : ThreadMap
  buffer : CommandBuffer
  resolves : List ResolveEvent

/-- Embedding of `dispatch_prologue(command_buffer,
shader_layout_signature, shader_descriptor, local_work_group_size)` as
called from thread `tid`: retrieve the descriptor-set layout from the
shader layout cache; then evaluate
`pipeline.cache.retrieve({pipeline.layout.cache.retrieve({shader_layout.handle}),
shader.cache.retrieve(shader_descriptor), local_work_group_size})` — C++
evaluates the elements of the braced initializer list left to right, so
the pipeline-layout retrieval precedes the shader retrieval — bind the
resolved pipeline into the command stream, and return a fresh descriptor
set allocated from the calling thread's descriptor pool, sized to the
resolved layout. No dispatch command is recorded. -/
def dispatch_prologue (tid : Nat) (caches : Caches) (threads : ThreadMap)
    (command_buffer : CommandBuffer)
    (shader_layout_signature : ShaderLayoutSignature)
    (shader_descriptor : ShaderDescriptor)
    (local_work_group_size : WorkGroup) : PrologueResult :=
  let r1 := caches.retrieveShaderLayout shader_layout_signature
  let r2 := r1.2.retrievePipelineLayout r1.1.handle
  let r3 := r2.2.retrieveShader shader_descriptor
  let pdesc : PipelineDescriptor := ⟨r2.1, r3.1, local_work_group_size⟩
  let r4 := r3.2.retrievePipeline pdesc
  let alloc := (threads tid).descriptorPool.allocate r1.1
  ⟨alloc.1, r4.2,
    fun t => if t = tid then
        ⟨(threads tid).resourcePool, alloc.2, (threads tid).commandPool⟩
      else threads t,
    command_buffer ++ [Cmd.bindPipeline r4.1 pdesc],
    [.shaderLayoutResolved shader_layout_signature,
     .pipelineLayoutResolved r1.1.handle,
     .shaderResolved shader_descriptor,
     .pipelineResolved pdesc]⟩

/-- Embedding of `dispatch_epilogue(command_buffer, descriptor_set,
global_work_group)`: bind the descriptor set into the command stream,
then record one dispatch command with the global work-group shape. -/
def dispatch_epilogue (command_buffer : CommandBuffer)
    (descriptor_set : DescriptorSet) (global_work_group : WorkGroup) :
    CommandBuffer :=
  command_buffer ++
    [Cmd.bindDescriptorSet descriptor_set, Cmd.dispatch global_work_group]

/-- Modelled from the spec: the resolution order claim C3 states —
descriptor-set layout, then compiled shader, then pipeline layout, then
full pipeline, "in that dependency order". -/
def claimedResolutionOrder (sig : ShaderLayoutSignature)
    (sd : ShaderDescriptor) (dsl : Nat) (pd : PipelineDescriptor) :
    List ResolveEvent :=
  [.shaderLayoutResolved sig, .shaderResolved sd,
   .pipelineLayoutResolved dsl, .pipelineResolved pd]

/-! ## Claim C9: construction fails on driver error or null device/queue -/

/-- **C9.** `create_device` raises an error whenever `vkCreateDevice`
reports failure or fills in a null device handle, `acquire_queue` raises an
error whenever the obtained queue handle is null, and `Context.construct`
only ever produces a context whose device and queue handles are both
non-null — feeder errors propagate, so no `Context` with a null device or
queue is ever produced. -/
theorem construct_no_null_handles (env : DriverEnv) (pd qfi : Nat)
    (rt : Runtime) (inst ai : Nat) :
    ((env.createDeviceResult ≠ 0 ∨ env.createdDevice = 0) →
      ∃ e, create_device env pd qfi = .error e) ∧
    (env.gotQueue = 0 →
      ∃ e, acquire_queue env pd qfi = .error e) ∧
    (∀ ctx : Context, Context.construct rt inst ai = .ok ctx →
      ctx.device_ ≠ 0 ∧ ctx.queue_ ≠ 0) := by
  refine ⟨?_, ?_, ?_⟩
  · intro h
    rw [create_device_def]
    refine exceptBind_error fun a _ => ?_
    refine exceptBind_error fun a _ => ?_
    refine exceptBind_error fun a _ => ?_
    rcases h with h | h
    · exact ⟨⟨"VK_CHECK failed"⟩,
        by rw [vkCheck, torchCheck_neg h]; rfl⟩
    · refine exceptBind_error fun a _ => ?_
      exact ⟨⟨"Invalid Vulkan device!"⟩,
        by rw [torchCheck_neg (not_not.mpr h)]; rfl⟩
  · intro h
    rw [acquire_queue_def]
    refine exceptBind_error fun a _ => ?_
    exact ⟨⟨"Invalid Vulkan queue!"⟩,
      by rw [torchCheck_neg (not_not.mpr h)]; rfl⟩
  · intro ctx hctx
    unfold Context.construct at hctx
    rw [except_bind_eq] at hctx
    obtain ⟨device, hdev, hctx⟩ := exceptBind_ok_iff.mp hctx
    rw [except_bind_eq] at hctx
    obtain ⟨queue, hq, hctx⟩ := exceptBind_ok_iff.mp hctx
    have hdev' := (create_device_ok hdev).2
    unfold Adapter.request_queue at hq
    rw [except_bind_eq] at hq
    obtain ⟨d, _, hq⟩ := exceptBind_ok_iff.mp hq
    have hq' := (acquire_queue_ok hq).2
    cases hctx
    exact ⟨hdev', hq'⟩

/-- Witness for C9 at a concrete environment: a failing `vkCreateDevice`
(result `-1`) makes `create_device` raise an error. -/
theorem construct_no_null_handles_witness :
    ((-1 : Int) ≠ 0 ∨ (7 : Nat) = 0) ∧
    (∃ e, create_device ⟨false, 0, 0, [], false, -1, 7, 5⟩ 1 0 = .error e) := by
  have h := construct_no_null_handles ⟨false, 0, 0, [], false, -1, 7, 5⟩ 1 0
    ⟨0, 0, []⟩ 0 0
  exact ⟨Or.inl (by decide), h.1 (Or.inl (by decide))⟩

/-- A successfully constructed context holds exactly the handles produced
by the adapter's driver environment: the created device and the leased
queue. -/
theorem construct_ok_fields {rt : Runtime} {inst ai : Nat} {ctx : Context}
    (h : Context.construct rt inst ai = .ok ctx) :
    ctx = ⟨inst, ai, (rt.get_adapter ai).env.createdDevice,
      (rt.get_adapter ai).env.gotQueue⟩ := by
  unfold Context.construct at h
  rw [except_bind_eq] at h
  obtain ⟨device, hdev, h⟩ := exceptBind_ok_iff.mp h
  rw [except_bind_eq] at h
  obtain ⟨queue, hq, h⟩ := exceptBind_ok_iff.mp h
  unfold Adapter.request_queue at hq
  rw [except_bind_eq] at hq
  obtain ⟨d, _, hq⟩ := exceptBind_ok_iff.mp hq
  have h1 := (create_device_ok hdev).1
  have h2 := (acquire_queue_ok hq).1
  cases h
  rw [h1, h2]

/-- One sample thread context with empty pools and no open stream. -/
def sampleThread : ThreadContext :=
  ⟨⟨[], 0⟩, ⟨[], 0, 0⟩, ⟨none, 0, 0⟩⟩

/-- A sample thread registry giving every thread the sample context. -/
def sampleThreads : ThreadMap := fun _ => sampleThread

/-- `flush()` when the queue-idle wait succeeds. -/
theorem flush_zero (ctx : Context) (tid : Nat) (threads : ThreadMap) :
    Context.flush ctx 0 tid threads =
      (fun t => if t = tid then
          ⟨(threads tid).resourcePool.purge,
            (threads tid).descriptorPool.purge,
            (threads tid).commandPool.purge⟩
        else threads t,
       [.queueWaitIdle ctx.queue_, .purgeResource tid, .purgeDescriptor tid,
        .purgeCommand tid],
       .ok ()) := by
  simp [Context.flush]

/-- `flush()` when the queue-idle wait fails. -/
theorem flush_nonzero (ctx : Context) {w : Int} (hw : w ≠ 0) (tid : Nat)
    (threads : ThreadMap) :
    Context.flush ctx w tid threads =
      (threads, [.queueWaitIdle ctx.queue_],
        .error ⟨"VK_CHECK failed"⟩) := by
  simp [Context.flush, hw]

/-! ## Claim C2: flush purges only after the queue-idle wait -/

/-- **C2.** Every `flush()` call first waits for the queue to go idle —
the trace starts with `queueWaitIdle`, the blocking wait for all
previously submitted work to complete device-side — and purges pools only
after that wait returns successfully: on success the trace is exactly the
wait followed by the three purges, and on a failed wait the error
propagates with no purge performed and every thread's pools left
untouched. -/
theorem flush_purge_only_after_idle (ctx : Context) (w : Int) (tid : Nat)
    (threads : ThreadMap) :
    (Context.flush ctx w tid threads).2.1.head? =
      some (Event.queueWaitIdle ctx.queue_) ∧
    (∀ e ∈ (Context.flush ctx w tid threads).2.1, e.isPurge = true →
      w = 0 ∧ e ∈ (Context.flush ctx w tid threads).2.1.tail) ∧
    (w = 0 →
      (Context.flush ctx w tid threads).2.1 =
        [.queueWaitIdle ctx.queue_, .purgeResource tid,
          .purgeDescriptor tid, .purgeCommand tid] ∧
      (Context.flush ctx w tid threads).2.2 = .ok ()) ∧
    (w ≠ 0 →
      (Context.flush ctx w tid threads).2.2 =
        .error ⟨"VK_CHECK failed"⟩ ∧
      (∀ e ∈ (Context.flush ctx w tid threads).2.1, e.isPurge = false) ∧
      (Context.flush ctx w tid threads).1 = threads) := by
  by_cases hw : w = 0
  · subst hw
    rw [flush_zero]
    refine ⟨rfl, ?_, fun _ => ⟨rfl, rfl⟩, fun h => absurd rfl h⟩
    intro e he hp
    refine ⟨rfl, ?_⟩
    simp only [List.mem_cons, List.not_mem_nil, or_false] at he
    rcases he with rfl | he
    · simp [Event.isPurge] at hp
    · simp only [List.tail_cons, List.mem_cons, List.not_mem_nil, or_false]
      exact he
  · rw [flush_nonzero ctx hw]
    refine ⟨rfl, ?_, fun h0 => absurd h0 hw, fun _ => ⟨rfl, ?_, rfl⟩⟩ <;>
      · intro e he
        simp only [List.mem_singleton] at he
        subst he
        simp [Event.isPurge]

/-- Witness for C2: on a successful wait (result `0`) from thread `0`, the
trace is the wait followed by the three purges; on a failed wait (result
`-3`), the error propagates, nothing is purged, and the registry is
untouched. -/
theorem flush_purge_only_after_idle_witness :
    ((Context.flush ⟨3, 0, 9, 5⟩ 0 0 sampleThreads).2.1 =
      [.queueWaitIdle 5, .purgeResource 0, .purgeDescriptor 0,
        .purgeCommand 0] ∧
      (Context.flush ⟨3, 0, 9, 5⟩ 0 0 sampleThreads).2.2 = .ok ()) ∧
    ((Context.flush ⟨3, 0, 9, 5⟩ (-3) 0 sampleThreads).2.2 =
      .error ⟨"VK_CHECK failed"⟩ ∧
      (∀ e ∈ (Context.flush ⟨3, 0, 9, 5⟩ (-3) 0 sampleThreads).2.1,
        e.isPurge = false) ∧
      (Context.flush ⟨3, 0, 9, 5⟩ (-3) 0 sampleThreads).1 =
        sampleThreads) :=
  ⟨(flush_purge_only_after_idle ⟨3, 0, 9, 5⟩ 0 0 sampleThreads).2.2.1 rfl,
    (flush_purge_only_after_idle ⟨3, 0, 9, 5⟩ (-3) 0
      sampleThreads).2.2.2 (by decide)⟩

/-! ## Claim C10: flush purges only the calling thread's pools -/

/-- **C10.** `flush()` called from thread `tid` purges only that thread's
three pools: every other thread's entry in the registry is unchanged (in
both the success and the failure case), on success the calling thread's
resource, descriptor, and command pools are the purged versions of its
previous pools, and every purge event in the trace names the calling
thread. -/
theorem flush_only_calling_thread (ctx : Context) (w : Int)
    (tid t' : Nat) (threads : ThreadMap) (hne : t' ≠ tid) :
    (Context.flush ctx w tid threads).1 t' = threads t' ∧
    (w = 0 → (Context.flush ctx w tid threads).1 tid =
      ⟨(threads tid).resourcePool.purge,
        (threads tid).descriptorPool.purge,
        (threads tid).commandPool.purge⟩) ∧
    (∀ e ∈ (Context.flush ctx w tid threads).2.1, e.isPurge = true →
      e = .purgeResource tid ∨ e = .purgeDescriptor tid ∨
        e = .purgeCommand tid) := by
  by_cases hw : w = 0
  · subst hw
    rw [flush_zero]
    refine ⟨by simp [hne], fun _ => by simp, ?_⟩
    intro e he hp
    simp only [List.mem_cons, List.not_mem_nil, or_false] at he
    rcases he with rfl | rfl | rfl | rfl
    · simp [Event.isPurge] at hp
    · exact Or.inl rfl
    · exact Or.inr (Or.inl rfl)
    · exact Or.inr (Or.inr rfl)
  · rw [flush_nonzero ctx hw]
    refine ⟨rfl, fun h0 => absurd h0 hw, ?_⟩
    intro e he hp
    simp only [List.mem_singleton] at he
    subst he
    simp [Event.isPurge] at hp

/-- Witness for C10 from thread `0` with thread `1` as the bystander: the
bystander's pools are untouched while the caller's pools are purged. -/
theorem flush_only_calling_thread_witness :
    (Context.flush ⟨3, 0, 9, 5⟩ 0 0 sampleThreads).1 1 = sampleThreads 1 ∧
    (Context.flush ⟨3, 0, 9, 5⟩ 0 0 sampleThreads).1 0 =
      ⟨(sampleThreads 0).resourcePool.purge,
        (sampleThreads 0).descriptorPool.purge,
        (sampleThreads 0).commandPool.purge⟩ := by
  have h := flush_only_calling_thread ⟨3, 0, 9, 5⟩ 0 0 1 sampleThreads
    (by decide)
  exact ⟨h.1, h.2.1 rfl⟩

/-! ## Claim C5: wait is a no-op on non-Vulkan tensors -/

/-- **C5.** `wait()` on a tensor that is not device-resident returns
immediately and does nothing: the thread registry is returned unchanged
and the event trace is empty — no command stream is obtained, no pool is
touched, and there is no queue interaction. -/
theorem wait_non_vulkan_noop (tid : Nat) (threads : ThreadMap)
    (src : Tensor) (h : src.deviceType ≠ .vulkan) :
    Context.wait tid threads src = (threads, []) := by
  simp [Context.wait, h]

/-- Witness for C5 on a concrete CPU tensor. -/
theorem wait_non_vulkan_noop_witness :
    Context.wait 0 sampleThreads ⟨.cpu, 42⟩ = (sampleThreads, []) :=
  wait_non_vulkan_noop 0 sampleThreads ⟨.cpu, 42⟩ (by decide)

/-! ## Claim C6: wait on a Vulkan tensor blocks on a host future -/

/-- **C6.** `wait()` on a device-resident (Vulkan) tensor obtains the
calling thread's current command stream from that thread's command pool,
requests a host-visible read-only future for the tensor's data via that
same stream, and blocks on that future last of all before returning; only
the calling thread's command pool may change (by opening a stream if none
was open). -/
theorem wait_vulkan_blocks (tid : Nat) (threads : ThreadMap)
    (src : Tensor) (h : src.deviceType = .vulkan) :
    Context.wait tid threads src =
      (fun t => if t = tid then
          ⟨(threads tid).resourcePool, (threads tid).descriptorPool,
            ((threads tid).commandPool.stream).2⟩
        else threads t,
       [.streamObtained tid ((threads tid).commandPool.stream).1,
        .hostFutureRequested src.dataId
          ((threads tid).commandPool.stream).1 .read,
        .futureWaited src.dataId]) ∧
    (Context.wait tid threads src).2.getLast? =
      some (.futureWaited src.dataId) := by
  constructor <;> simp [Context.wait, h]

/-- Witness for C6 on a concrete Vulkan tensor waited on from thread `0`:
a fresh stream `0` is opened, the read-only host future for data `42` is
requested on it, and the future wait is the final action. -/
theorem wait_vulkan_blocks_witness :
    (Context.wait 0 sampleThreads ⟨.vulkan, 42⟩).2 =
      [.streamObtained 0 0, .hostFutureRequested 42 0 .read,
        .futureWaited 42] ∧
    (Context.wait 0 sampleThreads ⟨.vulkan, 42⟩).2.getLast? =
      some (.futureWaited 42) := by
  have h := wait_vulkan_blocks 0 sampleThreads ⟨.vulkan, 42⟩ rfl
  exact ⟨by rw [h.1]; rfl, h.2⟩

/-! ## Claim C8: destruction returns the leased queue and nothing else -/

/-- **C8.** Destroying a successfully constructed context performs exactly
one action: it returns exactly the queue leased at construction (the
adapter's `request_queue` result) to the runtime collaborator, exactly
once — and nothing else: no queue-idle wait, no pool purge, and no
destruction of the device or queue handles. -/
theorem destruct_returns_queue_once (rt : Runtime) (inst ai : Nat)
    (ctx : Context) (hok : Context.construct rt inst ai = .ok ctx) :
    Context.destruct ctx = [.returnQueue ctx.queue_] ∧
    ctx.queue_ = (rt.get_adapter ai).env.gotQueue ∧
    (Context.destruct ctx).count (.returnQueue ctx.queue_) = 1 ∧
    (∀ e ∈ Context.destruct ctx, e.isPurge = false ∧
      (∀ q, e ≠ .queueWaitIdle q) ∧ (∀ d, e ≠ .destroyDevice d) ∧
      (∀ q, e ≠ .destroyQueue q)) := by
  refine ⟨rfl, ?_, ?_, ?_⟩
  · rw [construct_ok_fields hok]
  · simp [Context.destruct, List.count_singleton']
  · intro e he
    simp only [Context.destruct, List.mem_singleton] at he
    subst he
    exact ⟨rfl, fun q => by simp, fun d => by simp, fun q => by simp⟩

/-- Witness for C8 on the concrete working runtime: destruction of the
constructed context emits exactly one `returnQueue 5`, the queue the
adapter leased. -/
theorem destruct_returns_queue_once_witness :
    Context.destruct ⟨3, 0, 9, 5⟩ = [.returnQueue 5] ∧
    (3 : Nat) = 3 := by
  have h := destruct_returns_queue_once workingRuntime 3 0 ⟨3, 0, 9, 5⟩
    (by decide)
  exact ⟨h.1, rfl⟩

/-- The descriptor-set layout `dispatch_prologue` resolves for a layout
signature. -/
def resolvedLayout (c : Caches) (sig : ShaderLayoutSignature) :
    ShaderLayoutObject :=
  (c.retrieveShaderLayout sig).1

/-- The pipeline descriptor `dispatch_prologue` builds: the resolved
pipeline layout, the resolved shader module, and the given local
work-group shape. -/
def resolvedPipelineDescriptor (c : Caches) (sig : ShaderLayoutSignature)
    (sd : ShaderDescriptor) (lwg : WorkGroup) : PipelineDescriptor :=
  let r1 := c.retrieveShaderLayout sig
  let r2 := r1.2.retrievePipelineLayout r1.1.handle
  let r3 := r2.2.retrieveShader sd
  ⟨r2.1, r3.1, lwg⟩

/-- The pipeline handle `dispatch_prologue` binds into the command
stream. -/
def resolvedPipeline (c : Caches) (sig : ShaderLayoutSignature)
    (sd : ShaderDescriptor) (lwg : WorkGroup) : Nat :=
  let r1 := c.retrieveShaderLayout sig
  let r2 := r1.2.retrievePipelineLayout r1.1.handle
  let r3 := r2.2.retrieveShader sd
  (r3.2.retrievePipeline ⟨r2.1, r3.1, lwg⟩).1

/-! ## Claim C3 (corrected): the prologue's resolution order -/

/-- **C3 (counterexample).** The claim lists the resolution order as
descriptor-set layout, compiled shader, pipeline layout, full pipeline.
The code evaluates the braced pipeline-descriptor initializer left to
right, so the pipeline layout is resolved before the compiled shader: on
empty caches, signature `[storageBuffer]`, shader key `7`, and local shape
`(1,2,3)`, the recorded resolution trace has the pipeline-layout
retrieval second and the shader retrieval third, differing from the
claimed order. -/
theorem dispatch_prologue_order_counterexample :
    (dispatch_prologue 0 emptyCaches sampleThreads [] [.storageBuffer]
        ⟨7⟩ ⟨1, 2, 3⟩).resolves =
      [.shaderLayoutResolved [.storageBuffer], .pipelineLayoutResolved 0,
       .shaderResolved ⟨7⟩, .pipelineResolved ⟨0, 0, ⟨1, 2, 3⟩⟩] ∧
    (dispatch_prologue 0 emptyCaches sampleThreads [] [.storageBuffer]
        ⟨7⟩ ⟨1, 2, 3⟩).resolves ≠
      claimedResolutionOrder [.storageBuffer] ⟨7⟩ 0 ⟨0, 0, ⟨1, 2, 3⟩⟩ := by
  decide

/-- **C3 (amended).** `dispatch_prologue` resolves the descriptor-set
layout, then the pipeline layout for that layout's handle, then the
compiled shader, then the full pipeline for the triple of pipeline
layout, shader, and the given local work-group shape — dependency-
respecting, with the pipeline layout resolved before the shader — binds
the resolved pipeline into the command stream, allocates a fresh
descriptor set (its identifier not among the pool's previously live sets)
sized to the resolved layout from the calling thread's descriptor pool
(leaving every other thread's pools unchanged), returns that set, and
records no dispatch command. -/
theorem dispatch_prologue_amended (tid : Nat) (caches : Caches)
    (threads : ThreadMap) (buf : CommandBuffer)
    (sig : ShaderLayoutSignature) (sd : ShaderDescriptor)
    (lwg : WorkGroup)
    (hinv : ∀ s ∈ (threads tid).descriptorPool.live,
      s.id < (threads tid).descriptorPool.next) :
    (dispatch_prologue tid caches threads buf sig sd lwg).resolves =
      [.shaderLayoutResolved sig,
       .pipelineLayoutResolved (resolvedLayout caches sig).handle,
       .shaderResolved sd,
       .pipelineResolved (resolvedPipelineDescriptor caches sig sd lwg)] ∧
    (resolvedPipelineDescriptor caches sig sd lwg).localWorkGroup = lwg ∧
    (dispatch_prologue tid caches threads buf sig sd lwg).buffer =
      buf ++ [Cmd.bindPipeline (resolvedPipeline caches sig sd lwg)
        (resolvedPipelineDescriptor caches sig sd lwg)] ∧
    (dispatch_prologue tid caches threads buf sig sd lwg).set =
      ⟨(threads tid).descriptorPool.next, resolvedLayout caches sig, []⟩ ∧
    (dispatch_prologue tid caches threads buf sig sd lwg).set.id ∉
      (threads tid).descriptorPool.live.map DescriptorSet.id ∧
    (dispatch_prologue tid caches threads buf sig sd lwg).threads tid =
      ⟨(threads tid).resourcePool,
        ((threads tid).descriptorPool.allocate
          (resolvedLayout caches sig)).2,
        (threads tid).commandPool⟩ ∧
    (∀ t, t ≠ tid →
      (dispatch_prologue tid caches threads buf sig sd lwg).threads t =
        threads t) ∧
    (∀ c ∈ (dispatch_prologue tid caches threads buf sig sd
        lwg).buffer.drop buf.length, c.isDispatch = false) := by
  refine ⟨rfl, rfl, rfl, rfl, ?_, by simp [dispatch_prologue, resolvedLayout], ?_, ?_⟩
  · intro hmem
    simp only [List.mem_map] at hmem
    obtain ⟨s, hs, hid⟩ := hmem
    have hlt := hinv s hs
    have : (dispatch_prologue tid caches threads buf sig sd lwg).set.id =
        (threads tid).descriptorPool.next := rfl
    rw [this] at hid
    omega
  · intro t ht
    simp [dispatch_prologue, ht]
  · intro c hc
    have hb : (dispatch_prologue tid caches threads buf sig sd
        lwg).buffer.drop buf.length =
        [Cmd.bindPipeline (resolvedPipeline caches sig sd lwg)
          (resolvedPipelineDescriptor caches sig sd lwg)] := by
      have : (dispatch_prologue tid caches threads buf sig sd lwg).buffer =
          buf ++ [Cmd.bindPipeline (resolvedPipeline caches sig sd lwg)
            (resolvedPipelineDescriptor caches sig sd lwg)] := rfl
      rw [this, List.drop_left]
    rw [hb] at hc
    simp only [List.mem_singleton] at hc
    subst hc
    rfl

/-- Witness for C3 (amended) at a concrete input: empty caches, empty
pools, thread `0`, signature `[storageBuffer]`, shader key `7`, local
shape `(1,2,3)` — the resolution trace and the returned set evaluate as
stated. -/
theorem dispatch_prologue_amended_witness :
    (dispatch_prologue 0 emptyCaches sampleThreads [] [.storageBuffer]
        ⟨7⟩ ⟨1, 2, 3⟩).resolves =
      [.shaderLayoutResolved [.storageBuffer],
       .pipelineLayoutResolved
         (resolvedLayout emptyCaches [.storageBuffer]).handle,
       .shaderResolved ⟨7⟩,
       .pipelineResolved
         (resolvedPipelineDescriptor emptyCaches [.storageBuffer] ⟨7⟩
           ⟨1, 2, 3⟩)] ∧
    (dispatch_prologue 0 emptyCaches sampleThreads [] [.storageBuffer]
        ⟨7⟩ ⟨1, 2, 3⟩).set =
      ⟨(sampleThreads 0).descriptorPool.next,
        resolvedLayout emptyCaches [.storageBuffer], []⟩ := by
  have h := dispatch_prologue_amended 0 emptyCaches sampleThreads []
    [.storageBuffer] ⟨7⟩ ⟨1, 2, 3⟩ (by intro s hs; simp [sampleThreads,
      sampleThread] at hs)
  exact ⟨h.1, h.2.2.2.1⟩

/-! ## Claim C4: the epilogue records exactly one dispatch -/

/-- **C4.** `dispatch_epilogue` first binds the descriptor set into the
command stream and then records exactly one dispatch command carrying the
given global shape; a full prologue → caller-binding → epilogue round
trip appends to the stream exactly a pipeline bind, the caller-filled
descriptor-set bind, and one dispatch with the given global shape, where
the bound pipeline's descriptor carries exactly the local shape the
prologue was given. -/
theorem dispatch_epilogue_round_trip (tid : Nat) (caches : Caches)
    (threads : ThreadMap) (buf : CommandBuffer)
    (sig : ShaderLayoutSignature) (sd : ShaderDescriptor)
    (lwg g : WorkGroup) (rs : List Nat) :
    (∀ (b : CommandBuffer) (s : DescriptorSet) (g' : WorkGroup),
      dispatch_epilogue b s g' =
        b ++ [Cmd.bindDescriptorSet s, Cmd.dispatch g'] ∧
      (dispatch_epilogue b s g').drop b.length =
        [Cmd.bindDescriptorSet s, Cmd.dispatch g'] ∧
      (((dispatch_epilogue b s g').drop b.length).countP
        Cmd.isDispatch) = 1) ∧
    (dispatch_epilogue
        (dispatch_prologue tid caches threads buf sig sd lwg).buffer
        ⟨(dispatch_prologue tid caches threads buf sig sd lwg).set.id,
          (dispatch_prologue tid caches threads buf sig sd lwg).set.layout,
          rs⟩ g).drop buf.length =
      [Cmd.bindPipeline (resolvedPipeline caches sig sd lwg)
          (resolvedPipelineDescriptor caches sig sd lwg),
        Cmd.bindDescriptorSet
          ⟨(dispatch_prologue tid caches threads buf sig sd lwg).set.id,
            (dispatch_prologue tid caches threads buf sig sd
              lwg).set.layout, rs⟩,
        Cmd.dispatch g] ∧
    (resolvedPipelineDescriptor caches sig sd lwg).localWorkGroup = lwg ∧
    (((dispatch_epilogue
        (dispatch_prologue tid caches threads buf sig sd lwg).buffer
        ⟨(dispatch_prologue tid caches threads buf sig sd lwg).set.id,
          (dispatch_prologue tid caches threads buf sig sd lwg).set.layout,
          rs⟩ g).drop buf.length).countP Cmd.isDispatch) = 1 := by
  have hdrop : ∀ (b : CommandBuffer) (s : DescriptorSet) (g' : WorkGroup),
      (dispatch_epilogue b s g').drop b.length =
        [Cmd.bindDescriptorSet s, Cmd.dispatch g'] := by
    intro b s g'
    rw [dispatch_epilogue, List.drop_left]
  have hround : (dispatch_epilogue
      (dispatch_prologue tid caches threads buf sig sd lwg).buffer
      ⟨(dispatch_prologue tid caches threads buf sig sd lwg).set.id,
        (dispatch_prologue tid caches threads buf sig sd lwg).set.layout,
        rs⟩ g).drop buf.length =
      [Cmd.bindPipeline (resolvedPipeline caches sig sd lwg)
          (resolvedPipelineDescriptor caches sig sd lwg),
        Cmd.bindDescriptorSet
          ⟨(dispatch_prologue tid caches threads buf sig sd lwg).set.id,
            (dispatch_prologue tid caches threads buf sig sd
              lwg).set.layout, rs⟩,
        Cmd.dispatch g] := by
    have hb : (dispatch_prologue tid caches threads buf sig sd
        lwg).buffer =
        buf ++ [Cmd.bindPipeline (resolvedPipeline caches sig sd lwg)
          (resolvedPipelineDescriptor caches sig sd lwg)] := rfl
    rw [dispatch_epilogue, hb, List.append_assoc, List.drop_left]
    rfl
  refine ⟨fun b s g' => ⟨rfl, hdrop b s g', ?_⟩, hround, rfl, ?_⟩
  · rw [hdrop]
    simp [List.countP_cons, Cmd.isDispatch]
  · rw [hround]
    simp [List.countP_cons, Cmd.isDispatch]

end VulkanApi
